import Mathlib

/-!
Formal model of the VectorSlicerGCode motion/extrusion encoder
(`src/lib/gcode/base_printer.py`, `src/lib/gcode/hyrel_printer.py`) and of the
geometric path/pattern model it consumes (`src/lib/pattern_reading/`).

Python floats are modelled as real numbers; `np.linalg.norm` as the Euclidean
norm via `Real.sqrt`; machine-control command lines as a small inductive `Cmd`
carrying the numeric payloads that the source interpolates into the text
(decimal formatting of the payloads is not modelled); raised Python exceptions
as `Except Err` results.
-/

namespace VSG

/-- A 3-D machine position, mirroring the `np.array([x, y, z])` positions of
`base_printer.py`. -/
structure Vec3 where
  x : ℝ
  y : ℝ
  z : ℝ

/-- Euclidean distance between two 3-D positions, `np.linalg.norm(a - b)`. -/
noncomputable def dist3 (a b : Vec3) : ℝ :=
  Real.sqrt ((a.x - b.x) ^ 2 + (a.y - b.y) ^ 2 + (a.z - b.z) ^ 2)

/-- Euclidean distance between two 2-D points, `np.linalg.norm(a - b)` on
2-vectors. -/
noncomputable def dist2 (a b : ℝ × ℝ) : ℝ :=
  Real.sqrt ((a.1 - b.1) ^ 2 + (a.2 - b.2) ^ 2)

/-- Python exceptions raised by the encoder, with the payload the source
interpolates into the message where it matters for observable behaviour. -/
inductive Err where
  /-- `RuntimeError` (generic message). -/
  | runtimeError (msg : String)
  /-- `ValueError`. -/
  | valueError (msg : String)
  /-- `TypeError` raised dynamically by the Python runtime. -/
  | typeError (msg : String)
  /-- The `RuntimeError` of `__is_position_in_bounds`; the source message
  interpolates the offending position, modelled as the payload. -/
  | outOfBounds (position : Vec3)

/-- The E-token of a printing move: absolute cumulative value (`M82` modes),
per-move delta (`M83` modes), or the Hyrel-native `E1` sentinel. -/
inductive EField where
  | abs (e : ℝ)
  | rel (e : ℝ)
  | on

/-- One emitted machine-control line. Constructors mirror the distinct
f-string shapes written by the source; numeric payloads are carried unformatted. -/
inductive Cmd where
  /-- `G0 Z{z} F{f}` (lift-off raise/lower). -/
  | g0z (z f : ℝ)
  /-- `G0 X{x} Y{y} F{f}` (lift-off planar translate). -/
  | g0xy (x y f : ℝ)
  /-- `G0 X{x} Y{y} Z{z} F{f}` (single 3-D travel move). -/
  | g0xyz (x y z f : ℝ)
  /-- `G1 X{x} Y{y} Z{z} E... F{f}` (printing move). -/
  | g1print (x y z : ℝ) (e : EField) (f : ℝ)
  /-- `G1 E{e} F{f}` (retraction pulse). -/
  | g1retract (e f : ℝ)
  /-- `G92 E0`. -/
  | g92e0
  /-- `; {text}` comment line. -/
  | comment (text : String)
  /-- Export summary comment: total printing time `hours:minutes:seconds`. -/
  | summaryTime (hours minutes seconds : ℤ)
  /-- Export summary comment: total printing distance at print speed. -/
  | summaryPrintDist (d speed : ℝ)
  /-- Export summary comment: total non-printing distance at travel speed. -/
  | summaryNonPrintDist (d speed : ℝ)
  /-- Verbatim text block (header/body/footer supplements). -/
  | raw (text : String)

/-- `M722 T{tool+11} S{rate} E{pulses} P{dwell}` (configure prime). -/
def Cmd.m722 (tool : ℕ) (rate : ℕ) (pulses : ℤ) (dwell : ℕ) : Cmd :=
  Cmd.raw s!"M722 T{tool + 11} S{rate} E{pulses} P{dwell}"

/-- `M721 T{tool+11} S{rate} E{pulses} P{dwell}` (configure unprime). -/
def Cmd.m721 (tool : ℕ) (rate : ℕ) (pulses : ℤ) (dwell : ℕ) : Cmd :=
  Cmd.raw s!"M721 T{tool + 11} S{rate} E{pulses} P{dwell}"

/- Extrusion control types of `base_printer.py` (module-level constants). -/

def HYREL_NATIVE : ℕ := 0
def EXT_ABS_CONST : ℕ := 1
def EXT_REL_CONST : ℕ := 2
def EXT_ABS_VAR : ℕ := 3
def EXT_REL_VAR : ℕ := 4
def EXT_ABS_VAR_SPEED : ℕ := 5
def EXT_REL_VAR_SPEED : ℕ := 6

/-- Extrusion types where printing speed is used to control the extrusion width. -/
def EXT_WITH_VAR_SPEED : List ℕ := [EXT_ABS_VAR_SPEED, EXT_REL_VAR_SPEED]

/-- Extrusion types where print width is constant. -/
def EXT_WITH_CONST_W : List ℕ := [EXT_ABS_CONST, EXT_REL_CONST, HYREL_NATIVE]

/-- Extrusion types where print width is variable. -/
def EXT_WITH_VAR_W : List ℕ := [EXT_ABS_VAR, EXT_REL_VAR, EXT_ABS_VAR_SPEED, EXT_REL_VAR_SPEED]

/-- Extrusion types where the extrusion is controlled by relative E value. -/
def EXT_WITH_REL_E : List ℕ := [EXT_REL_CONST, EXT_REL_VAR, EXT_REL_VAR_SPEED]

/-- Extrusion types where the extrusion is controlled by absolute E value. -/
def EXT_WITH_ABS_E : List ℕ := [EXT_ABS_VAR, EXT_ABS_CONST, EXT_ABS_VAR_SPEED]

/-- `cross_section(width, height)` of `base_printer.py` (slic3r flow math):
`apparent_width = width + height * (1 - pi / 4)`;
result `(apparent_width - height) * height + pi * (height / 2) ** 2`. -/
noncomputable def cross_section (width height : ℝ) : ℝ :=
  let apparent_width := width + height * (1 - Real.pi / 4)
  (apparent_width - height) * height + Real.pi * (height / 2) ^ 2

/-- The mutable state of a `BasePrinter` (`base_printer.py` `__init__`
attributes), together with the header/body/footer command streams. -/
structure PrinterState where
  print_speed : ℝ
  non_print_speed : ℝ
  print_width : ℝ
  layer_thickness : ℝ
  first_layer_thickness : ℝ
  filament_cross_section : ℝ
  reference_cross_section : ℝ
  physical_pixel_size : Option ℝ
  lift_off_distance : Option ℝ
  lift_off_height : ℝ
  extrusion_multiplier : ℝ
  extrusion_control_type : ℕ
  retraction_length : Option ℝ
  retraction_rate : Option ℝ
  x_limit : Option ℝ
  y_limit : Option ℝ
  z_limit : Option ℝ
  current_position : Vec3
  print_time : ℝ
  print_distance : ℝ
  non_print_distance : ℝ
  extrusion_distance : ℝ
  total_extrusion_distance : ℝ
  header : List Cmd
  body : List Cmd
  footer : List Cmd

/-- `BasePrinter.__init__`. The generation timestamp written into the header
is environment input, taken here as the `time_string` parameter. -/
noncomputable def mkBasePrinter (print_speed non_print_speed print_width layer_thickness : ℝ)
    (first_layer_height : Option ℝ) (physical_pixel_size : Option ℝ)
    (lift_off_distance : Option ℝ) (lift_off_height : ℝ)
    (extrusion_multiplier : ℝ) (filament_diameter : ℝ)
    (extrusion_control_type : ℕ)
    (retraction_length retraction_rate : Option ℝ)
    (x_limit y_limit z_limit : Option ℝ) (time_string : String) : PrinterState where
  print_speed := print_speed
  non_print_speed := non_print_speed
  print_width := print_width
  layer_thickness := layer_thickness
  first_layer_thickness := first_layer_height.getD layer_thickness
  filament_cross_section := Real.pi * filament_diameter ^ 2 / 4
  reference_cross_section := cross_section print_width layer_thickness
  physical_pixel_size := physical_pixel_size
  lift_off_distance := lift_off_distance
  lift_off_height := lift_off_height
  extrusion_multiplier := extrusion_multiplier
  extrusion_control_type := extrusion_control_type
  retraction_length := retraction_length
  retraction_rate := retraction_rate
  x_limit := x_limit
  y_limit := y_limit
  z_limit := z_limit
  current_position := ⟨0, 0, 0⟩
  print_time := 0
  print_distance := 0
  non_print_distance := 0
  extrusion_distance := 0
  total_extrusion_distance := 0
  header := [Cmd.comment "File generated using VectorSlicerGCode version: 0.3.1.",
             Cmd.comment s!"Generated on: {time_string}."]
  body := []
  footer := []

/-- `_comment_body`. -/
def commentBody (s : PrinterState) (content : String) : PrinterState :=
  { s with body := s.body ++ [Cmd.comment content] }

/-- `_printing_move_3d_variable_width` of `base_printer.py` (lines 308-331):
accumulates the extrusion for the move, updates printing distance, time and
position, and emits one `G1` command whose E-token format follows the
extrusion control type. The source performs no travel-limit validation here. -/
noncomputable def printingMove3VariableWidth (s : PrinterState) (position : Vec3)
    (width : ℝ) (speedOpt : Option ℝ) : PrinterState :=
  let length := dist3 position s.current_position
  let path_cross_section := cross_section width s.layer_thickness
  let extrusion_amount :=
    length * path_cross_section / s.filament_cross_section * s.extrusion_multiplier
  let new_extrusion_distance := s.extrusion_distance + extrusion_amount
  let base_speed := speedOpt.getD s.print_speed
  let print_speed :=
    if s.extrusion_control_type ∈ EXT_WITH_VAR_SPEED then
      base_speed * (s.reference_cross_section / path_cross_section)
    else base_speed
  let e : EField :=
    if s.extrusion_control_type ∈ EXT_WITH_ABS_E then .abs new_extrusion_distance
    else if s.extrusion_control_type ∈ EXT_WITH_REL_E then .rel extrusion_amount
    else .on
  { s with
    extrusion_distance := new_extrusion_distance
    print_distance := s.print_distance + length
    print_time := s.print_time + length / print_speed
    current_position := position
    body := s.body ++ [Cmd.g1print position.x position.y position.z e print_speed] }

/-- Modelled from the spec: the extrusion amount for a printing move of length
`length` at width `width`, layer height `height` and multiplier `multiplier`,
for both metering families. The linear branch is the one implemented by
`_printing_move_3d_variable_width` in `src/lib/gcode/base_printer.py`; the
volumetric branch belongs to the newer `ExtrusionType is_volumetric` API that
`hyrel_printer.py` and `prusa_printer.py` construct but whose `BasePrinter`
implementation is not under `src/`. Per the spec: "Extrusion amount =
volume x multiplier (volumetric) or volume/filamentCrossSection x multiplier
(linear, filamentCrossSection from filament diameter)". -/
noncomputable def extrusionAmountSpec (is_volumetric : Bool)
    (length width height multiplier filament_cross_section : ℝ) : ℝ :=
  if is_volumetric then length * cross_section width height * multiplier
  else length * cross_section width height / filament_cross_section * multiplier

/-- `position > limit` for a nullable axis limit:
`limit is not None and position > limit`. -/
def exceeds (limit : Option ℝ) (v : ℝ) : Prop :=
  match limit with
  | some l => v > l
  | none => False

/-- The failure condition of `__is_position_in_bounds` (lines 336-344): some
coordinate exceeds its configured upper limit, or some coordinate is negative. -/
def outOfBoundsP (s : PrinterState) (position : Vec3) : Prop :=
  exceeds s.x_limit position.x ∨ exceeds s.y_limit position.y ∨
    exceeds s.z_limit position.z ∨
    position.x < 0 ∨ position.y < 0 ∨ position.z < 0

/-- The leading retraction pulse of `_non_printing_move`:
`G1 E{-retraction_length} F{retraction_rate}` when both retraction parameters
are configured, nothing otherwise. -/
def retractionPre (s : PrinterState) : List Cmd :=
  match s.retraction_length, s.retraction_rate with
  | some rl, some rr => [Cmd.g1retract (-rl) rr]
  | _, _ => []

/-- The trailing retraction pulse of `_non_printing_move`:
`G1 E{retraction_length} F{retraction_rate}` when both retraction parameters
are configured, nothing otherwise. -/
def retractionPost (s : PrinterState) : List Cmd :=
  match s.retraction_length, s.retraction_rate with
  | some rl, some rr => [Cmd.g1retract rl rr]
  | _, _ => []

/-- The lift-off condition of `_non_printing_move` (lines 390-394): a lift-off
distance is configured, the travel length reaches it, and the move keeps Z. -/
noncomputable def liftOffCond (s : PrinterState) (position : Vec3) : Prop :=
  match s.lift_off_distance with
  | some d => dist3 position s.current_position ≥ d ∧ position.z = s.current_position.z
  | none => False

open Classical in
/-- `_non_printing_move` on an already 3-D position (lines 378-412 after the
dimension handling): validates bounds first — failing with the out-of-bounds
error before anything is emitted or updated — then optionally brackets the
move with retraction pulses, emits either the three-command lift-off sequence
(raise by `lift_off_height`, planar translate, lower to the target Z) or a
single 3-D `G0`, and accumulates the corresponding travel length and time. -/
noncomputable def nonPrintingMove3 (s : PrinterState) (position : Vec3) (speed : ℝ) :
    Except Err PrinterState :=
  if outOfBoundsP s position then .error (.outOfBounds position) else
  let moves_and_length : List Cmd × ℝ :=
    if liftOffCond s position then
      ([Cmd.g0z (s.current_position.z + s.lift_off_height) speed,
        Cmd.g0xy position.x position.y speed,
        Cmd.g0z position.z speed],
       s.lift_off_height
         + dist2 (s.current_position.x, s.current_position.y) (position.x, position.y)
         + |s.current_position.z + s.lift_off_height - position.z|)
    else
      ([Cmd.g0xyz position.x position.y position.z speed],
       dist3 s.current_position position)
  .ok { s with
        body := s.body ++ retractionPre s ++ moves_and_length.1 ++ retractionPost s
        current_position := position
        non_print_distance := s.non_print_distance + moves_and_length.2
        print_time := s.print_time + moves_and_length.2 / speed }

/-- `_non_printing_move`: resolves the default speed, widens a 2-component
position with the current Z, rejects other dimensions, then performs the move. -/
noncomputable def nonPrintingMove (s : PrinterState) (position : List ℝ)
    (speedOpt : Option ℝ) : Except Err PrinterState :=
  let speed := speedOpt.getD s.non_print_speed
  match position with
  | [px, py] => nonPrintingMove3 s ⟨px, py, s.current_position.z⟩ speed
  | [px, py, pz] => nonPrintingMove3 s ⟨px, py, pz⟩ speed
  | _ => .error (.runtimeError "Invalid position given: should have either 2 or 3 components.")

/-- Axis-aligned bounds `[min_x, min_y, max_x, max_y]` as cached by the
pattern-reading classes. -/
structure Bounds where
  min_x : ℝ
  min_y : ℝ
  max_x : ℝ
  max_y : ℝ

/-- `PrintPath.__get_bounds`: coordinate-wise minima and maxima over the
vertex list. `np.min`/`np.max` raise on an empty array; the `[]` case is an
unused junk value, every constructed path having at least one vertex. -/
noncomputable def getBounds : List (ℝ × ℝ) → Bounds
  | [] => ⟨0, 0, 0, 0⟩
  | q :: rest =>
    rest.foldl
      (fun b r => ⟨min b.min_x r.1, min b.min_y r.2, max b.max_x r.1, max b.max_y r.2⟩)
      ⟨q.1, q.2, q.1, q.2⟩

/-- `PrintPath.__get_length`: sum of the Euclidean lengths of consecutive
vertex differences. -/
noncomputable def pathLength : List (ℝ × ℝ) → ℝ
  | [] => 0
  | [_] => 0
  | a :: b :: rest => dist2 b a + pathLength (b :: rest)

/-- A parsed `PrintPath` (`print_path.py`). `overlap` is `Option` so that the
`path.overlap is None` guard of `_slice_path` is representable; the
constructor always stores an array, see `mkPrintPath`. -/
structure PrintPath where
  path_coordinates : List (ℝ × ℝ)
  position_count : ℕ
  overlap : Option (List ℝ)
  bounds : Bounds
  length : ℝ

/-- `PrintPath.__init__` after the text parsing: takes the parsed coordinate
rows and the optionally parsed overlap values; without overlap data the
overlap attribute is `np.zeros(position_count)`. -/
noncomputable def mkPrintPath (coords : List (ℝ × ℝ)) (overlapIn : Option (List ℝ)) :
    PrintPath where
  path_coordinates := coords
  position_count := coords.length
  overlap := some (overlapIn.getD (List.replicate coords.length 0))
  bounds := getBounds coords
  length := pathLength coords

noncomputable instance : Inhabited PrintPath := ⟨mkPrintPath [] none⟩

/-- `PrintPath.start`: the first vertex (`path_coordinates[0]`; an empty path
would raise, the default is junk). -/
def PrintPath.start (p : PrintPath) : ℝ × ℝ := p.path_coordinates.headD (0, 0)

/-- `PrintPath.end`: the last vertex (`path_coordinates[-1]`; `end` is a Lean
keyword, hence `endPoint`). -/
def PrintPath.endPoint (p : PrintPath) : ℝ × ℝ := p.path_coordinates.getLastD (0, 0)

/-- `PrintPath.invert`: reverses the vertex order. The source touches only
`path_coordinates` (overlap, bounds and length are left as they are). -/
def PrintPath.invert (p : PrintPath) : PrintPath :=
  { p with path_coordinates := p.path_coordinates.reverse }

/-- `PrintPath.rotate` (print_path.py lines 62-76): a missing centre defaults
to `np.array([0, 0])` (the origin); a centre that is not a 2-component vector
raises `ValueError` before anything is mutated; otherwise the coordinates are
shifted by the centre, rotated counter-clockwise, shifted back, and the
bounds are recomputed (the cached length is not touched). -/
noncomputable def PrintPath.rotate (p : PrintPath) (angle : ℝ)
    (centreOpt : Option (List ℝ)) : Except Err PrintPath :=
  let centre := centreOpt.getD [0, 0]
  match centre with
  | [cx, cy] =>
    let shifted := p.path_coordinates.map fun q => (q.1 - cx, q.2 - cy)
    let rotated := shifted.map fun q =>
      (Real.cos angle * q.1 - Real.sin angle * q.2,
       Real.sin angle * q.1 + Real.cos angle * q.2)
    let back := rotated.map fun q => (q.1 + cx, q.2 + cy)
    .ok { p with path_coordinates := back, bounds := getBounds back }
  | _ => .error (.valueError "Rotation centre must be a 2-dimensional position.")

/-- The standard counter-clockwise rotation of a point about a centre, used to
state rotation claims. -/
noncomputable def rot2 (angle : ℝ) (centre q : ℝ × ℝ) : ℝ × ℝ :=
  (Real.cos angle * (q.1 - centre.1) - Real.sin angle * (q.2 - centre.2) + centre.1,
   Real.sin angle * (q.1 - centre.1) + Real.cos angle * (q.2 - centre.2) + centre.2)

/-- The bounds midpoint of a path, the "entity's own centre" in the sense the
spec uses for `Layer` and `Pattern` (a `PrintPath` stores no centre attribute
in the source). Used to state C3. -/
noncomputable def specPathCentre (p : PrintPath) : ℝ × ℝ :=
  ((p.bounds.min_x + p.bounds.max_x) / 2, (p.bounds.min_y + p.bounds.max_y) / 2)

/-- `Layer.__get_bounds`: union of the per-path bounds. Empty layers would
raise in the source; the `[]` case is junk. -/
noncomputable def layerBounds : List PrintPath → Bounds
  | [] => ⟨0, 0, 0, 0⟩
  | p :: rest =>
    rest.foldl
      (fun b q => ⟨min b.min_x q.bounds.min_x, min b.min_y q.bounds.min_y,
                   max b.max_x q.bounds.max_x, max b.max_y q.bounds.max_y⟩)
      p.bounds

/-- `__get_centre` of `Layer`/`Pattern`: `[min_x + max_x, min_y + max_y] / 2`. -/
noncomputable def boundsCentre (b : Bounds) : ℝ × ℝ :=
  ((b.min_x + b.max_x) / 2, (b.min_y + b.max_y) / 2)

/-- `Layer.__get_printing_distance`: sum of the cached path lengths. -/
noncomputable def layerPrintingDistance (paths : List PrintPath) : ℝ :=
  (paths.map PrintPath.length).sum

/-- `Layer.__get_non_printing_distance`: sum of the gaps between consecutive
path end/next start (0 for a single path, and 0 for no paths since both
difference arrays are then empty). -/
noncomputable def layerNonPrintingDistance : List PrintPath → ℝ
  | [] => 0
  | [_] => 0
  | a :: b :: rest => dist2 a.endPoint b.start + layerNonPrintingDistance (b :: rest)

/-- A `Layer` (`layer.py`) with its cached derived quantities. -/
structure Layer where
  print_paths : List PrintPath
  path_count : ℕ
  bounds : Bounds
  centre : ℝ × ℝ
  printing_distance : ℝ
  non_printing_distance : ℝ

/-- `Layer.__init__` (also the recomputation done by `__update_properties`). -/
noncomputable def mkLayer (paths : List PrintPath) : Layer where
  print_paths := paths
  path_count := paths.length
  bounds := layerBounds paths
  centre := boundsCentre (layerBounds paths)
  printing_distance := layerPrintingDistance paths
  non_printing_distance := layerNonPrintingDistance paths

/-- `Layer.invert`: reverses the path order and inverts each path. The source
mutates in place and does not recompute the derived quantities. -/
def Layer.invert (l : Layer) : Layer :=
  { l with print_paths := l.print_paths.reverse.map PrintPath.invert }

/-- `Layer.rotate` (layer.py lines 91-97): a missing centre defaults to the
layer's own cached centre; every path is rotated about that centre and the
derived quantities are recomputed. -/
noncomputable def Layer.rotate (l : Layer) (angle : ℝ) (centreOpt : Option (List ℝ)) :
    Except Err Layer := do
  let centre := centreOpt.getD [l.centre.1, l.centre.2]
  let paths ← l.print_paths.mapM (fun p => p.rotate angle (some centre))
  return mkLayer paths

/-- `Pattern.__get_bounds`: union of the per-layer bounds (junk for no layers). -/
noncomputable def patternBounds : List Layer → Bounds
  | [] => ⟨0, 0, 0, 0⟩
  | l :: rest =>
    rest.foldl
      (fun b q => ⟨min b.min_x q.bounds.min_x, min b.min_y q.bounds.min_y,
                   max b.max_x q.bounds.max_x, max b.max_y q.bounds.max_y⟩)
      l.bounds

/-- A `Pattern` (`pattern.py`). -/
structure Pattern where
  pixel_path_width : ℕ
  pattern_name : String
  layers : List Layer
  layer_count : ℕ
  bounds : Bounds
  centre : ℝ × ℝ

/-- `Pattern.rotate` (pattern.py lines 81-93): a missing centre defaults to
the pattern's own cached centre; every layer is rotated about it, then
`__update_bounds` recomputes bounds and centre (only those two). -/
noncomputable def Pattern.rotate (pat : Pattern) (angle : ℝ)
    (centreOpt : Option (List ℝ)) : Except Err Pattern := do
  let centre := centreOpt.getD [pat.centre.1, pat.centre.2]
  let layers ← pat.layers.mapM (fun l => l.rotate angle (some centre))
  return { pat with layers := layers, bounds := patternBounds layers,
                    centre := boundsCentre (patternBounds layers) }

/-- `_printing_move_variable_width` on the 2-component rows that `_slice_path`
passes: the position is widened with the current Z and handed to
`_printing_move_3d_variable_width`. -/
noncomputable def printingMoveWidened (s : PrinterState) (q : ℝ × ℝ) (width : ℝ)
    (speedOpt : Option ℝ) : PrinterState :=
  printingMove3VariableWidth s ⟨q.1, q.2, s.current_position.z⟩ width speedOpt

/-- `_slice_path` (base_printer.py lines 447-455): resolves the default print
speed once, then for each vertex emits a constant-width printing move when the
path has no overlap data or the extrusion type is constant-width, else a
variable-width move with `width = print_width * (1 - overlap[i] / 2)`. The
per-vertex branch condition is loop-invariant and is hoisted here; pairing
each vertex with its overlap entry by `zip` matches the source's indexed
access whenever the overlap count equals the vertex count (the constructor
invariant; a shorter overlap array would raise `IndexError` in the source). -/
noncomputable def slicePath (s : PrinterState) (path : PrintPath)
    (speedOpt : Option ℝ) : PrinterState :=
  let speed := speedOpt.getD s.print_speed
  match path.overlap with
  | none =>
    path.path_coordinates.foldl
      (fun st q => printingMoveWidened st q st.print_width (some speed)) s
  | some ovl =>
    if s.extrusion_control_type ∈ EXT_WITH_CONST_W then
      path.path_coordinates.foldl
        (fun st q => printingMoveWidened st q st.print_width (some speed)) s
    else
      (path.path_coordinates.zip ovl).foldl
        (fun st qo => printingMoveWidened st qo.1 (st.print_width * (1 - qo.2 / 2))
          (some speed)) s

/-- The path loop of `slice_layer` (lines 241-244): for each path in stored
order, comment, travel to the path's first vertex, then encode the path. -/
noncomputable def slicePaths (speedOpt : Option ℝ) :
    PrinterState → List PrintPath → Except Err PrinterState
  | s, [] => .ok s
  | s, path :: rest => do
    let s1 := commentBody s "Moving to the next path."
    let s2 ← nonPrintingMove s1 [path.start.1, path.start.2] none
    slicePaths speedOpt (slicePath s2 path speedOpt) rest

/-- `slice_layer` (base_printer.py lines 234-244): fails when the physical
pixel size is unset, else comments and encodes the paths in stored order. -/
noncomputable def sliceLayer (s : PrinterState) (layer : Layer)
    (speedOpt : Option ℝ) : Except Err PrinterState :=
  match s.physical_pixel_size with
  | none => .error (.valueError "Physical pixel size is undefined.")
  | some _ => slicePaths speedOpt (commentBody s "Beginning a new layer.") layer.print_paths

/-- The inversion trigger of C2, as the spec states it: the current machine
position is strictly closer to the layer's last path's end point than to its
first path's start point (planar distance to the 2-D path vertices). -/
noncomputable def closerToLastEnd (s : PrinterState) (layer : Layer) : Prop :=
  dist2 (s.current_position.x, s.current_position.y)
      (layer.print_paths.getLastD default).endPoint <
    dist2 (s.current_position.x, s.current_position.y)
      (layer.print_paths.headD default).start

/-- A sample configured printer used by concrete witnesses: speeds 1000/2000,
width 0.4, layer 0.2, lift-off 10/2, multiplier 1, filament 1.75, relative
constant-width extrusion, no retraction, axis limits 10/10/10. -/
noncomputable def sampleState : PrinterState :=
  mkBasePrinter 1000 2000 0.4 0.2 none (some 0.04) (some 10) 2 1 1.75
    EXT_REL_CONST none none (some 10) (some 10) (some 10) "today"

/-- The sample printer with no axis limits configured. -/
noncomputable def sampleStateNoLimits : PrinterState :=
  { sampleState with x_limit := none, y_limit := none, z_limit := none }

/-- Machine state for the C2 scenario: no limits, no lift-off, no retraction,
positioned at (6, 0, 0) — exactly at the end of the layer's last path. -/
noncomputable def c2State : PrinterState :=
  { sampleStateNoLimits with current_position := ⟨6, 0, 0⟩, lift_off_distance := none }

/-- First path of the C2 layer: from (-2, 0) to (-1, 0). -/
noncomputable def c2PathA : PrintPath := mkPrintPath [(-2, 0), (-1, 0)] none

/-- Second (last) path of the C2 layer: the single vertex (6, 0). -/
noncomputable def c2PathB : PrintPath := mkPrintPath [(6, 0)] none

/-- The C2 layer. -/
noncomputable def c2Layer : Layer := mkLayer [c2PathA, c2PathB]

/-- Path for the C3 counterexample: from (2, 0) to (4, 0); its bounds midpoint
is (3, 0), distinct from the origin. -/
noncomputable def c3Path : PrintPath := mkPrintPath [(2, 0), (4, 0)] none

/-- Observable used to separate rotation results: the X coordinate of the
first vertex of a successfully rotated path (0 for a failure). -/
noncomputable def firstVertexX : Except Err PrintPath → ℝ
  | .ok pp => (pp.path_coordinates.headD (0, 0)).1
  | .error _ => 0

/-- The `layers` argument of `slice_pattern`, dynamically typed in the source:
either an integer layer count or an explicit index list. -/
inductive LayersArg where
  | int (n : ℤ)
  | list (l : List ℤ)

/-- The layer-index resolution of `slice_pattern` (base_printer.py lines 202
and 210-213). For an integer argument: a non-positive count raises
`RuntimeError`, otherwise the visited indices are `i % layer_count` for
`i in range(layers)`, in that order. For a list argument the guard
`if layers <= 0` itself raises `TypeError` in Python 3 (a list cannot be
compared with an int), so the iterable branch
`[layer % layer_count for layer in layers]` of lines 210-211 is unreachable;
the embedding returns that `TypeError`. -/
def resolveLayers (layers : LayersArg) (layer_count : ℕ) : Except Err (List ℕ) :=
  match layers with
  | .int n =>
    if n ≤ 0 then
      .error (.runtimeError "Pattern cannot be sliced with non-positive number of layers.")
    else
      .ok ((List.range n.toNat).map (fun i => i % layer_count))
  | .list _ => .error (.typeError "unsupported operand comparison between list and int")

/-- `_reset_extrusion_status` (base_printer.py lines 251-254): folds the
session extrusion accumulator into the lifetime total, zeroes the session
accumulator, and emits `G92 E0`. -/
noncomputable def resetExtrusionStatus (s : PrinterState) : PrinterState :=
  { s with
    total_extrusion_distance := s.total_extrusion_distance + s.extrusion_distance
    extrusion_distance := 0
    body := s.body ++ [Cmd.g92e0] }

/-- A supplement string as the command-stream block it contributes. -/
def optRaw : Option String → List Cmd
  | some t => [Cmd.raw t]
  | none => []

/-- `BasePrinter.export` (base_printer.py lines 146-190): computes the
summary time (Python's `int()` truncation modelled as the floor, the print
time being non-negative in use), resets the extrusion status, appends the
three summary comments to the header, and serializes
header + supplement, body + supplement, footer + supplement — in exactly that
order — into the output artifact, returned here instead of written to disk.
Returns the final state and the artifact. -/
noncomputable def exportOutput (s : PrinterState)
    (header_supplement body_supplement footer_supplement : Option String) :
    PrinterState × List Cmd :=
  let seconds : ℤ := ⌊s.print_time * 60⌋ % 60
  let minutes : ℤ := ⌊s.print_time⌋ % 60
  let hours : ℤ := ⌊s.print_time / 60⌋ % 60
  let s1 := resetExtrusionStatus s
  let s2 := { s1 with header := s1.header ++
    [Cmd.summaryTime hours minutes seconds,
     Cmd.summaryPrintDist s1.print_distance s1.print_speed,
     Cmd.summaryNonPrintDist s1.non_print_distance s1.non_print_speed] }
  (s2, s2.header ++ optRaw header_supplement ++ s2.body ++ optRaw body_supplement
    ++ s2.footer ++ optRaw footer_supplement)

/-- `priming_lines` of `__prime_now`/`__unprime_now` (hyrel_printer.py line
289): `math.ceil(prime_pulses / 65535)`. -/
def primingLines (prime_pulses : ℕ) : ℕ := ⌈(prime_pulses : ℚ) / 65535⌉₊

/-- `__configure_prime` (hyrel_printer.py lines 195-208): rejects pulse counts
outside the unsigned-short range `[0, 65535]` with `ValueError`, otherwise
emits the `M722` configuration (with its dwell), plus the immediate-execution
`M722 ... I1` when requested. -/
def configurePrime (tool : ℕ) (pulse_rate : ℕ) (number_of_pulses : ℤ)
    (dwell_time : ℕ) (is_executed_immediately : Bool) : Except Err (List Cmd) :=
  if ¬ (0 ≤ number_of_pulses ∧ number_of_pulses ≤ 65535) then
    .error (.valueError
      "Pulse count must be less than 65535 due to use of unsigned short by Hyrel.")
  else
    .ok ([Cmd.comment "Configuring priming.",
          Cmd.m722 tool pulse_rate number_of_pulses dwell_time, Cmd.raw "G4 P1"] ++
      (if is_executed_immediately then
        [Cmd.comment "Priming now.", Cmd.raw s!"M722 T{tool + 11} I1", Cmd.raw "G4 P1"]
      else []))

/-- The splitting and speed plan of `__prime_now` (hyrel_printer.py lines
276-308): the pulse budget is split over `priming_lines` lines of
`prime_pulses / priming_lines` pulses each, traversed at
`min(print_speed, 60 * length / single_line_time)`, alternating direction
after every line (the emitted motion itself goes through the move encoders
modelled above). -/
structure PrimePlan where
  priming_lines : ℕ
  priming_pulses_per_line : ℚ
  priming_speed : ℚ
  line_directions : List Bool

/-- The plan computed by `__prime_now` for a pulse budget, line length, pulse
rate and initial direction. -/
def primeNow (print_speed line_length : ℚ) (prime_pulses : ℕ) (prime_rate : ℚ)
    (is_going_in_positive_x : Bool) : PrimePlan :=
  let priming_lines := primingLines prime_pulses
  let priming_pulses_per_line : ℚ := (prime_pulses : ℚ) / (priming_lines : ℚ)
  let single_line_time : ℚ := priming_pulses_per_line / prime_rate
  let priming_speed : ℚ := min print_speed (60 * line_length / single_line_time)
  { priming_lines := priming_lines
    priming_pulses_per_line := priming_pulses_per_line
    priming_speed := priming_speed
    line_directions := (List.range priming_lines).map
      (fun i => if i % 2 = 0 then is_going_in_positive_x else !is_going_in_positive_x) }

end VSG

namespace VSG

@[simp] theorem exceeds_some (l v : ℝ) : exceeds (some l) v ↔ v > l := Iff.rfl

@[simp] theorem exceeds_none (v : ℝ) : exceeds none v ↔ False := Iff.rfl

theorem retractionPre_off (s : PrinterState)
    (h : s.retraction_length = none ∨ s.retraction_rate = none) :
    retractionPre s = [] := by
  unfold retractionPre
  rcases h with h | h
  · rw [h]
  · rw [h]
    cases s.retraction_length <;> rfl

theorem retractionPost_off (s : PrinterState)
    (h : s.retraction_length = none ∨ s.retraction_rate = none) :
    retractionPost s = [] := by
  unfold retractionPost
  rcases h with h | h
  · rw [h]
  · rw [h]
    cases s.retraction_length <;> rfl

theorem sampleState_x_limit : sampleState.x_limit = some 10 := rfl

theorem sampleState_retraction :
    sampleState.retraction_length = none ∨ sampleState.retraction_rate = none :=
  Or.inl rfl

/-- C1: for every printing move, the running extrusion accumulator increases by
`L * crossSection(w, h) / filamentCrossSection * m` (the linear metering of
`_printing_move_3d_variable_width`), the volumetric metering amount is
`L * crossSection(w, h) * m`, where
`crossSection(w,h) = (w + h*(1-pi/4) - h)*h + pi*(h/2)^2` and the filament
cross-section set at construction is `pi * filamentDiameter^2 / 4`. -/
theorem c1_extrusion_metering :
    (∀ (s : PrinterState) (position : Vec3) (width : ℝ) (speedOpt : Option ℝ),
      (printingMove3VariableWidth s position width speedOpt).extrusion_distance =
        s.extrusion_distance +
          dist3 position s.current_position * cross_section width s.layer_thickness /
            s.filament_cross_section * s.extrusion_multiplier) ∧
    (∀ width height : ℝ,
      cross_section width height =
        (width + height * (1 - Real.pi / 4) - height) * height + Real.pi * (height / 2) ^ 2) ∧
    (∀ a b c d e f g h i j k l m n o p q,
      (mkBasePrinter a b c d e f g h i j k l m n o p q).filament_cross_section =
        Real.pi * j ^ 2 / 4) ∧
    (∀ length width height multiplier fcs : ℝ,
      extrusionAmountSpec false length width height multiplier fcs =
          length * cross_section width height / fcs * multiplier ∧
      extrusionAmountSpec true length width height multiplier fcs =
        length * cross_section width height * multiplier) :=
  ⟨fun _ _ _ _ => rfl, fun _ _ => rfl, fun _ _ _ _ _ _ _ _ _ _ _ _ _ _ _ _ _ => rfl,
   fun _ _ _ _ _ => ⟨rfl, rfl⟩⟩

/-- C4: a non-printing move whose (widened) target exceeds a configured
per-axis upper limit or has a negative coordinate fails with the out-of-bounds
error. The `Except.error` result carries no state and no commands: nothing is
appended to any stream and the machine state remains the unchanged `s`,
matching the source where `__is_position_in_bounds` raises before any write. -/
theorem c4_out_of_bounds_rejected (s : PrinterState) (speedOpt : Option ℝ) :
    (∀ px py pz : ℝ, outOfBoundsP s ⟨px, py, pz⟩ →
      nonPrintingMove s [px, py, pz] speedOpt = .error (.outOfBounds ⟨px, py, pz⟩)) ∧
    (∀ px py : ℝ, outOfBoundsP s ⟨px, py, s.current_position.z⟩ →
      nonPrintingMove s [px, py] speedOpt =
        .error (.outOfBounds ⟨px, py, s.current_position.z⟩)) := by
  constructor
  · intro px py pz h
    show nonPrintingMove3 s ⟨px, py, pz⟩ _ = _
    unfold nonPrintingMove3
    rw [if_pos h]
  · intro px py h
    show nonPrintingMove3 s ⟨px, py, s.current_position.z⟩ _ = _
    unfold nonPrintingMove3
    rw [if_pos h]

/-- Witness for C4: with the X limit configured at 10, the 3-D target
(20, 5, 0) and the 2-D target (20, 5) are both rejected out of bounds. -/
theorem c4_out_of_bounds_rejected_witness :
    outOfBoundsP sampleState ⟨20, 5, 0⟩ ∧
      nonPrintingMove sampleState [20, 5, 0] none = .error (.outOfBounds ⟨20, 5, 0⟩) := by
  have h : outOfBoundsP sampleState ⟨20, 5, 0⟩ := by
    refine Or.inl ?_
    rw [sampleState_x_limit]
    simp only [exceeds_some]
    norm_num
  exact ⟨h, (c4_out_of_bounds_rejected sampleState none).1 20 5 0 h⟩

/-- C5: an in-bounds non-printing move (without configured retraction) of
length at least the configured lift-off threshold and with unchanged Z emits
exactly the three commands raise / planar translate / lower, and the
non-printing distance grows by `lift_off_height + planar distance +
lift_off_height`; any other in-bounds non-printing move emits a single 3-D
`G0` and the distance grows by the Euclidean start-to-end distance. -/
theorem c5_lift_off_decomposition (s : PrinterState) (position : Vec3) (speed : ℝ)
    (hin : ¬ outOfBoundsP s position)
    (hretr : s.retraction_length = none ∨ s.retraction_rate = none)
    (hh : 0 ≤ s.lift_off_height) :
    (∀ d : ℝ, s.lift_off_distance = some d →
      d ≤ dist3 position s.current_position → position.z = s.current_position.z →
      ∃ s', nonPrintingMove3 s position speed = .ok s' ∧
        s'.body = s.body ++
          [Cmd.g0z (s.current_position.z + s.lift_off_height) speed,
           Cmd.g0xy position.x position.y speed,
           Cmd.g0z position.z speed] ∧
        s'.non_print_distance = s.non_print_distance +
          (s.lift_off_height
            + dist2 (s.current_position.x, s.current_position.y) (position.x, position.y)
            + s.lift_off_height)) ∧
    (¬ liftOffCond s position →
      ∃ s', nonPrintingMove3 s position speed = .ok s' ∧
        s'.body = s.body ++ [Cmd.g0xyz position.x position.y position.z speed] ∧
        s'.non_print_distance = s.non_print_distance + dist3 s.current_position position) := by
  constructor
  · intro d hd hge hz
    have hcond : liftOffCond s position := by
      unfold liftOffCond
      rw [hd]
      exact ⟨hge, hz⟩
    unfold nonPrintingMove3
    rw [if_neg hin, if_pos hcond]
    refine ⟨_, rfl, ?_, ?_⟩
    · rw [retractionPre_off s hretr, retractionPost_off s hretr]
      simp
    · show s.non_print_distance + _ = _
      rw [hz]
      rw [show s.current_position.z + s.lift_off_height - s.current_position.z =
        s.lift_off_height by ring]
      rw [abs_of_nonneg hh]
  · intro hcond
    unfold nonPrintingMove3
    rw [if_neg hin, if_neg hcond]
    refine ⟨_, rfl, ?_, rfl⟩
    rw [retractionPre_off s hretr, retractionPost_off s hretr]
    simp

/-- Witness for C5: from the origin with no axis limits, lift-off threshold 10
and lift height 2, the move to (12, 0, 0) has length `sqrt 144 = 12 >= 10` at
unchanged Z, so it decomposes into the three lift-off commands. -/
theorem c5_lift_off_decomposition_witness :
    (¬ outOfBoundsP sampleStateNoLimits ⟨12, 0, 0⟩) ∧
      (sampleStateNoLimits.retraction_length = none ∨
        sampleStateNoLimits.retraction_rate = none) ∧
      (0 : ℝ) ≤ sampleStateNoLimits.lift_off_height ∧
      sampleStateNoLimits.lift_off_distance = some 10 ∧
      (10 : ℝ) ≤ dist3 ⟨12, 0, 0⟩ sampleStateNoLimits.current_position ∧
      (∃ s', nonPrintingMove3 sampleStateNoLimits ⟨12, 0, 0⟩ 2000 = .ok s' ∧
        s'.body = sampleStateNoLimits.body ++
          [Cmd.g0z (sampleStateNoLimits.current_position.z +
              sampleStateNoLimits.lift_off_height) 2000,
           Cmd.g0xy 12 0 2000,
           Cmd.g0z 0 2000] ∧
        s'.non_print_distance = sampleStateNoLimits.non_print_distance +
          (sampleStateNoLimits.lift_off_height
            + dist2 (sampleStateNoLimits.current_position.x,
                sampleStateNoLimits.current_position.y) (12, 0)
            + sampleStateNoLimits.lift_off_height)) := by
  have hin : ¬ outOfBoundsP sampleStateNoLimits ⟨12, 0, 0⟩ := by
    unfold outOfBoundsP
    rw [show sampleStateNoLimits.x_limit = none from rfl,
      show sampleStateNoLimits.y_limit = none from rfl,
      show sampleStateNoLimits.z_limit = none from rfl]
    simp only [exceeds_none]
    push_neg
    norm_num
  have hretr : sampleStateNoLimits.retraction_length = none ∨
      sampleStateNoLimits.retraction_rate = none := Or.inl rfl
  have hh : (0 : ℝ) ≤ sampleStateNoLimits.lift_off_height := by
    rw [show sampleStateNoLimits.lift_off_height = 2 from rfl]
    norm_num
  have hdist : (10 : ℝ) ≤ dist3 ⟨12, 0, 0⟩ sampleStateNoLimits.current_position := by
    have hpos : sampleStateNoLimits.current_position = ⟨0, 0, 0⟩ := rfl
    rw [hpos]
    unfold dist3
    rw [show ((12 : ℝ) - 0) ^ 2 + ((0 : ℝ) - 0) ^ 2 + ((0 : ℝ) - 0) ^ 2 = 12 ^ 2 by norm_num]
    rw [Real.sqrt_sq (by norm_num : (0 : ℝ) ≤ 12)]
    norm_num
  have hz : (Vec3.mk 12 0 0).z = sampleStateNoLimits.current_position.z := rfl
  have hmain :=
    (c5_lift_off_decomposition sampleStateNoLimits ⟨12, 0, 0⟩ 2000 hin hretr hh).1
      10 rfl hdist hz
  exact ⟨hin, hretr, hh, rfl, hdist, hmain⟩

theorem nonPrintingMove2_out (s : PrinterState) (px py : ℝ) (v : Option ℝ)
    (h : outOfBoundsP s ⟨px, py, s.current_position.z⟩) :
    nonPrintingMove s [px, py] v = .error (.outOfBounds ⟨px, py, s.current_position.z⟩) := by
  show nonPrintingMove3 _ _ _ = _
  unfold nonPrintingMove3
  rw [if_pos h]

theorem nonPrintingMove2_noLift (s : PrinterState) (px py : ℝ)
    (hin : ¬ outOfBoundsP s ⟨px, py, s.current_position.z⟩)
    (hretr : s.retraction_length = none ∨ s.retraction_rate = none)
    (hlift : s.lift_off_distance = none) :
    nonPrintingMove s [px, py] none = .ok { s with
      body := s.body ++ [Cmd.g0xyz px py s.current_position.z s.non_print_speed]
      current_position := ⟨px, py, s.current_position.z⟩
      non_print_distance := s.non_print_distance +
        dist3 s.current_position ⟨px, py, s.current_position.z⟩
      print_time := s.print_time +
        dist3 s.current_position ⟨px, py, s.current_position.z⟩ / s.non_print_speed } := by
  show nonPrintingMove3 _ _ _ = _
  have hc : ¬ liftOffCond s ⟨px, py, s.current_position.z⟩ := by
    unfold liftOffCond
    rw [hlift]
    exact not_false
  unfold nonPrintingMove3
  rw [if_neg hin, if_neg hc, retractionPre_off s hretr, retractionPost_off s hretr]
  simp

theorem outOfBoundsP_no_limits (s : PrinterState) (q : Vec3)
    (hx : s.x_limit = none) (hy : s.y_limit = none) (hz : s.z_limit = none)
    (h1 : 0 ≤ q.x) (h2 : 0 ≤ q.y) (h3 : 0 ≤ q.z) : ¬ outOfBoundsP s q := by
  unfold outOfBoundsP
  rw [hx, hy, hz]
  intro hcon
  rcases hcon with h | h | h | h | h | h
  · exact h
  · exact h
  · exact h
  · exact absurd h (not_lt.mpr h1)
  · exact absurd h (not_lt.mpr h2)
  · exact absurd h (not_lt.mpr h3)

theorem slicePaths_cons_out (v : Option ℝ) (s : PrinterState) (p : PrintPath)
    (rest : List PrintPath)
    (h : outOfBoundsP s ⟨p.start.1, p.start.2, s.current_position.z⟩) :
    slicePaths v s (p :: rest) =
      .error (.outOfBounds ⟨p.start.1, p.start.2, s.current_position.z⟩) := by
  rw [slicePaths]
  rw [nonPrintingMove2_out (commentBody s "Moving to the next path.") p.start.1 p.start.2
    none h]
  rfl

theorem slicePaths_cons_ok (v : Option ℝ) (s s2 : PrinterState) (p : PrintPath)
    (rest : List PrintPath)
    (h : nonPrintingMove (commentBody s "Moving to the next path.")
      [p.start.1, p.start.2] none = .ok s2) :
    slicePaths v s (p :: rest) = slicePaths v (slicePath s2 p v) rest := by
  rw [slicePaths, h]
  rfl

theorem c2_closer : closerToLastEnd c2State c2Layer := by
  show dist2 (6, 0) (6, 0) < dist2 (6, 0) (-2, 0)
  have e1 : dist2 ((6 : ℝ), (0 : ℝ)) (6, 0) = 0 := by
    unfold dist2
    norm_num
  have e2 : (0 : ℝ) < dist2 ((6 : ℝ), (0 : ℝ)) (-2, 0) := by
    unfold dist2
    apply Real.sqrt_pos.mpr
    norm_num
  rw [e1]
  exact e2

/-- C2 as stated is false: with the machine exactly at the last path's end
(distance 0, strictly closer than to the first path's start), `slice_layer`
still encodes the stored order — it travels first towards the stored first
path, hitting its start (-2, 0), while encoding the inverted layer would
travel to (-1, 0) before failing. The two runs are observably different. -/
theorem c2_counterexample :
    closerToLastEnd c2State c2Layer ∧
      sliceLayer c2State c2Layer none ≠
        sliceLayer c2State (Layer.invert c2Layer) none := by
  refine ⟨c2_closer, ?_⟩
  have h1 : sliceLayer c2State c2Layer none = .error (.outOfBounds ⟨-2, 0, 0⟩) := by
    show slicePaths none (commentBody c2State "Beginning a new layer.")
      [c2PathA, c2PathB] = _
    refine slicePaths_cons_out none _ _ _ ?_
    refine Or.inr (Or.inr (Or.inr (Or.inl ?_)))
    show (-2 : ℝ) < 0
    norm_num
  have h2 : sliceLayer c2State (Layer.invert c2Layer) none =
      .error (.outOfBounds ⟨-1, 0, 0⟩) := by
    show slicePaths none (commentBody c2State "Beginning a new layer.")
      [PrintPath.invert c2PathB, PrintPath.invert c2PathA] = _
    rw [slicePaths_cons_ok none (commentBody c2State "Beginning a new layer.") _
      (PrintPath.invert c2PathB) _
      (nonPrintingMove2_noLift
        (commentBody (commentBody c2State "Beginning a new layer.")
          "Moving to the next path.") 6 0
        (outOfBoundsP_no_limits _ _ rfl rfl rfl (by norm_num) (by norm_num) le_rfl)
        (Or.inl rfl) rfl)]
    refine slicePaths_cons_out none _ _ _ ?_
    refine Or.inr (Or.inr (Or.inr (Or.inl ?_)))
    show (-1 : ℝ) < 0
    norm_num
  rw [h1, h2]
  simp only [ne_eq, Except.error.injEq, Err.outOfBounds.injEq, Vec3.mk.injEq, not_and]
  intro h _
  norm_num at h

/-- C2 amended: `slice_layer` always encodes the paths in their stored order,
in particular also when the current machine position is strictly closer to the
layer's last path's end than to its first path's start (the condition under
which the claim expects an inversion); `Layer.invert` exists in the source but
`slice_layer` never invokes it. -/
theorem c2_stored_order (s : PrinterState) (layer : Layer) (speedOpt : Option ℝ)
    (hpx : s.physical_pixel_size ≠ none) (_hcond : closerToLastEnd s layer) :
    sliceLayer s layer speedOpt =
      slicePaths speedOpt (commentBody s "Beginning a new layer.") layer.print_paths := by
  unfold sliceLayer
  cases h : s.physical_pixel_size with
  | none => exact absurd h hpx
  | some v => rfl

/-- Witness for C2: the scenario of the counterexample satisfies both
hypotheses, and the stored-order encoding equation holds there. -/
theorem c2_stored_order_witness :
    c2State.physical_pixel_size ≠ none ∧ closerToLastEnd c2State c2Layer ∧
      sliceLayer c2State c2Layer none =
        slicePaths none (commentBody c2State "Beginning a new layer.")
          c2Layer.print_paths := by
  have hpx : c2State.physical_pixel_size ≠ none := by
    rw [show c2State.physical_pixel_size = some 0.04 from rfl]
    simp
  exact ⟨hpx, c2_closer, c2_stored_order c2State c2Layer none hpx c2_closer⟩

/-- C3 as stated is false for `PrintPath`: the path from (2, 0) to (4, 0) has
its own centre (bounds midpoint) at (3, 0), yet rotating by pi without an
explicit centre rotates about the origin — the first vertex lands at (-2, 0)
instead of the (4, 0) produced by rotating about the path's own centre. -/
theorem c3_counterexample :
    specPathCentre c3Path = (3, 0) ∧
      PrintPath.rotate c3Path Real.pi none ≠
        PrintPath.rotate c3Path Real.pi (some [3, 0]) := by
  constructor
  · show ((min (2 : ℝ) 4 + max (2 : ℝ) 4) / 2, (min (0 : ℝ) 0 + max (0 : ℝ) 0) / 2) =
      ((3 : ℝ), (0 : ℝ))
    rw [min_eq_left (by norm_num : (2 : ℝ) ≤ 4), max_eq_right (by norm_num : (2 : ℝ) ≤ 4),
      min_self, max_self]
    norm_num
  · intro heq
    have h := congrArg firstVertexX heq
    have e1 : firstVertexX (PrintPath.rotate c3Path Real.pi none) =
        Real.cos Real.pi * (2 - 0) - Real.sin Real.pi * (0 - 0) + 0 := rfl
    have e2 : firstVertexX (PrintPath.rotate c3Path Real.pi (some [3, 0])) =
        Real.cos Real.pi * (2 - 3) - Real.sin Real.pi * (0 - 0) + 3 := rfl
    rw [e1, e2, Real.cos_pi, Real.sin_pi] at h
    norm_num at h

/-- C3 amended: the default rotation centre is the entity's own centre for
`Layer` and `Pattern` but the origin `[0, 0]` for `PrintPath`; with an explicit
2-D centre the coordinates are mapped by the standard counter-clockwise
rotation about it and the bounds are recomputed; any centre that is not
2-dimensional is rejected with `ValueError`. -/
theorem c3_rotate_defaults :
    (∀ (p : PrintPath) (angle : ℝ),
      p.rotate angle none = p.rotate angle (some [0, 0])) ∧
    (∀ (l : Layer) (angle : ℝ),
      l.rotate angle none = l.rotate angle (some [l.centre.1, l.centre.2])) ∧
    (∀ (pat : Pattern) (angle : ℝ),
      pat.rotate angle none = pat.rotate angle (some [pat.centre.1, pat.centre.2])) ∧
    (∀ (p : PrintPath) (angle cx cy : ℝ),
      p.rotate angle (some [cx, cy]) = .ok { p with
        path_coordinates := p.path_coordinates.map (rot2 angle (cx, cy))
        bounds := getBounds (p.path_coordinates.map (rot2 angle (cx, cy))) }) ∧
    (∀ (p : PrintPath) (angle : ℝ), p.rotate angle (some []) =
      .error (.valueError "Rotation centre must be a 2-dimensional position.")) ∧
    (∀ (p : PrintPath) (angle x : ℝ), p.rotate angle (some [x]) =
      .error (.valueError "Rotation centre must be a 2-dimensional position.")) ∧
    (∀ (p : PrintPath) (angle x y z : ℝ) (rest : List ℝ),
      p.rotate angle (some (x :: y :: z :: rest)) =
        .error (.valueError "Rotation centre must be a 2-dimensional position.")) := by
  refine ⟨fun p angle => rfl, fun l angle => rfl, fun pat angle => rfl,
    fun p angle cx cy => ?_, fun p angle => rfl, fun p angle x => rfl,
    fun p angle x y z rest => rfl⟩
  have hmap : ∀ coords : List (ℝ × ℝ),
      ((coords.map (fun q => (q.1 - cx, q.2 - cy))).map (fun q =>
          (Real.cos angle * q.1 - Real.sin angle * q.2,
           Real.sin angle * q.1 + Real.cos angle * q.2))).map
        (fun q => (q.1 + cx, q.2 + cy)) =
      coords.map (rot2 angle (cx, cy)) := by
    intro coords
    rw [List.map_map, List.map_map]
    rfl
  rw [← hmap p.path_coordinates]
  rfl

/-- C6: the layer-index resolution of `slice_pattern`. The integer case works
as claimed — requesting 7 layers of a 3-layer pattern visits
`[0, 1, 2, 0, 1, 2, 0]` and a non-positive count is rejected — but an explicit
index list, which lines 210-211 clearly intend to support (and the claim
covers), never reaches the modulo reduction: the `layers <= 0` guard on line
202 raises `TypeError` first. -/
theorem c6_slice_pattern_layer_indices :
    resolveLayers (.int 7) 3 = .ok [0, 1, 2, 0, 1, 2, 0] ∧
    resolveLayers (.int 0) 3 =
      .error (.runtimeError "Pattern cannot be sliced with non-positive number of layers.") ∧
    resolveLayers (.list [0, 1]) 3 =
      .error (.typeError "unsupported operand comparison between list and int") :=
  ⟨rfl, rfl, rfl⟩

/-- C7: `export` folds the session extrusion accumulator into the lifetime
total and zeroes it (the fold keeping the pre-reset value), emits the `G92 E0`
reset into the body, and serializes header + supplement, body + supplement,
footer + supplement in exactly that order. -/
theorem c7_export_fold_before_reset (s : PrinterState) (hs bs fs : Option String) :
    (exportOutput s hs bs fs).1.total_extrusion_distance =
        s.total_extrusion_distance + s.extrusion_distance ∧
    (exportOutput s hs bs fs).1.extrusion_distance = 0 ∧
    (exportOutput s hs bs fs).1.body = s.body ++ [Cmd.g92e0] ∧
    (exportOutput s hs bs fs).2 =
      (exportOutput s hs bs fs).1.header ++ optRaw hs ++
        (exportOutput s hs bs fs).1.body ++ optRaw bs ++
        (exportOutput s hs bs fs).1.footer ++ optRaw fs :=
  ⟨rfl, rfl, rfl, rfl⟩

/-- C8: priming splits a pulse budget `P` into `ceil(P / 65535)` lines of
equal budget `P / lines` (summing back to `P`), each traversed at feed speed
`min(print speed, 60 * L / ((P / lines) / rate))`; 150000 pulses split into
exactly 3 lines; and configuring a single prime with more than 65535 pulses
fails with `ValueError`. -/
theorem c8_priming_split (ps L r : ℚ) (P : ℕ) (dir : Bool) (hP : 0 < P) :
    (primeNow ps L P r dir).priming_lines = ⌈(P : ℚ) / 65535⌉₊ ∧
    (primeNow ps L P r dir).line_directions.length = ⌈(P : ℚ) / 65535⌉₊ ∧
    (primeNow ps L P r dir).priming_pulses_per_line *
        ((primeNow ps L P r dir).priming_lines : ℚ) = (P : ℚ) ∧
    (primeNow ps L P r dir).priming_speed =
      min ps (60 * L / (((P : ℚ) / (primingLines P : ℚ)) / r)) ∧
    primingLines 150000 = 3 ∧
    (∀ (tool rate : ℕ) (pulses : ℤ) (dwell : ℕ) (b : Bool), 65535 < pulses →
      configurePrime tool rate pulses dwell b =
        .error (.valueError
          "Pulse count must be less than 65535 due to use of unsigned short by Hyrel.")) := by
  have hceil : (0 : ℕ) < primingLines P := by
    unfold primingLines
    rw [Nat.ceil_pos]
    exact div_pos (by exact_mod_cast hP) (by norm_num)
  refine ⟨rfl, ?_, ?_, rfl, ?_, ?_⟩
  · show ((List.range (primingLines P)).map _).length = _
    rw [List.length_map, List.length_range]
    rfl
  · show (P : ℚ) / (primingLines P : ℚ) * (primingLines P : ℚ) = (P : ℚ)
    exact div_mul_cancel₀ _ (by exact_mod_cast hceil.ne')
  · unfold primingLines
    rw [Nat.ceil_eq_iff (by norm_num)]
    constructor
    · push_cast
      norm_num
    · push_cast
      norm_num
  · intro tool rate pulses dwell b hgt
    unfold configurePrime
    rw [if_pos]
    push_neg
    intro _
    omega

/-- Witness for C8: 150000 pulses at rate 10000 over 20 mm lines with print
speed 240 split into exactly 3 equal-budget lines, and a single prime of
70000 pulses is rejected. -/
theorem c8_priming_split_witness :
    (0 : ℕ) < 150000 ∧
    (primeNow 240 20 150000 10000 true).priming_lines = ⌈(150000 : ℚ) / 65535⌉₊ ∧
    (primeNow 240 20 150000 10000 true).priming_pulses_per_line *
        ((primeNow 240 20 150000 10000 true).priming_lines : ℚ) = (150000 : ℚ) ∧
    primingLines 150000 = 3 ∧
    configurePrime 1 10000 70000 0 false =
      .error (.valueError
        "Pulse count must be less than 65535 due to use of unsigned short by Hyrel.") := by
  have h := c8_priming_split 240 20 10000 150000 true (by norm_num)
  exact ⟨by norm_num, h.1, h.2.2.1, h.2.2.2.2.1, h.2.2.2.2.2 1 10000 70000 0 false (by norm_num)⟩

/-- C9: the printing move performs no travel-limit validation: it is a total
function that always emits its single motion command and updates the machine
position, and in particular it does so for a target that the bounds predicate
of `__is_position_in_bounds` (used only by non-printing moves) rejects. -/
theorem c9_printing_move_unchecked :
    (∀ (s : PrinterState) (p : Vec3) (w : ℝ) (v : Option ℝ),
      ∃ e f, (printingMove3VariableWidth s p w v).body =
          s.body ++ [Cmd.g1print p.x p.y p.z e f] ∧
        (printingMove3VariableWidth s p w v).current_position = p) ∧
    (outOfBoundsP sampleState ⟨20, 5, 0⟩ ∧
      ∃ e f, (printingMove3VariableWidth sampleState ⟨20, 5, 0⟩ 0.4 none).body =
          sampleState.body ++ [Cmd.g1print 20 5 0 e f] ∧
        (printingMove3VariableWidth sampleState ⟨20, 5, 0⟩ 0.4 none).current_position =
          ⟨20, 5, 0⟩) := by
  refine ⟨fun s p w v => ⟨_, _, rfl, rfl⟩, ?_, ⟨_, _, rfl, rfl⟩⟩
  refine Or.inl ?_
  rw [sampleState_x_limit]
  simp only [exceeds_some]
  norm_num

theorem zip_replicate_zero_foldl (v : Option ℝ) (coords : List (ℝ × ℝ)) :
    ∀ s : PrinterState,
      (coords.zip (List.replicate coords.length (0 : ℝ))).foldl
          (fun st qo => printingMoveWidened st qo.1 (st.print_width * (1 - qo.2 / 2)) v) s =
        coords.foldl (fun st q => printingMoveWidened st q st.print_width v) s := by
  induction coords with
  | nil => intro s; rfl
  | cons q rest ih =>
    intro s
    have h0 : ∀ st : PrinterState, st.print_width * (1 - (0 : ℝ) / 2) = st.print_width :=
      fun st => by norm_num
    simp only [List.length_cons, List.replicate_succ, List.zip_cons_cons, List.foldl_cons]
    rw [h0, ih]

/-- C10: a `PrintPath` constructed without overlap data carries an all-zeros
overlap array with one entry per vertex (the attribute is never absent), and
`_slice_path` encodes such a path — under any extrusion policy, in particular
a variable-width one — exactly as the constant-width encoding at the nominal
print width, since `print_width * (1 - 0 / 2) = print_width`. -/
theorem c10_default_overlap :
    (∀ coords : List (ℝ × ℝ),
      (mkPrintPath coords none).overlap = some (List.replicate coords.length 0)) ∧
    (∀ (s : PrinterState) (coords : List (ℝ × ℝ)) (speedOpt : Option ℝ),
      slicePath s (mkPrintPath coords none) speedOpt =
        coords.foldl
          (fun st q => printingMoveWidened st q st.print_width
            (some (speedOpt.getD s.print_speed))) s) := by
  refine ⟨fun _ => rfl, fun s coords v => ?_⟩
  unfold slicePath
  simp only [mkPrintPath, Option.getD_none]
  by_cases h : s.extrusion_control_type ∈ EXT_WITH_CONST_W
  · rw [if_pos h]
  · rw [if_neg h]
    exact zip_replicate_zero_foldl _ coords s

end VSG
